import Mathlib

/-!
# QR Payload Lifecycle Module — verification development

Shallow embedding of the QR-code payload lifecycle of the h2rms repository
(`utils/qrGenerator.js`, `utils/qrProcessor.js`, `pages/api/qr/generate.js`,
`pages/api/qr/process.js`, and the `secureQRGeneration` / `secureQRProcessing`
sketches of the QR usage guide).

Modelling conventions:
* A scanned/submitted payload is modelled after its JSON parse as a record of
  optional fields (`QRData`); a `none` field is a key absent from the object.
  JSON serialisation/parsing of the flat payload object is the external JSON
  library's concern and is not re-modelled: `validateQRData` accepts either a
  string (parsed first) or an object, and we embed the object branch.
* `Date.now()` becomes an explicit `now : Int` argument (ms since epoch).
* JavaScript truthiness on an optional number (`data.expiresAt && ...`,
  `expiresAt || default`) is `truthyInt`: absent (`undefined`/`null`) and `0`
  are falsy, every other integer is truthy.
* The external datastore collaborator (the `fetch` calls) is a parameter:
  `downstream : Except String Unit` is the outcome of the HTTP round trip, and
  the request body actually sent is reified as an `EmitRequest` so theorems can
  talk about what was emitted.
* HMAC-SHA256 (`crypto.createHmac`) is an abstract parameter
  `hmac : String → QRData → String` (key, serialised payload ↦ digest);
  `demoHmac` is a concrete stand-in used to evaluate closed statements.
* SHA-256 content hashing in the replay cache is idealised as the content
  itself: the `processedQRs` set stores the (decidably equal) payload values,
  which is faithful for byte-identical resubmission.
-/

/-- The parsed QR payload object: each field is `none` when the JSON object
lacks the key. Field inventory is the union of fields used by the generators
and processors in the guide. -/
structure QRData where
  type : Option String := none
  timestamp : Option Int := none
  expiresAt : Option Int := none
  employeeId : Option String := none
  locationId : Option String := none
  locationName : Option String := none
  documentId : Option String := none
  accessLevel : Option String := none
  signature : Option String := none
deriving Repr, DecidableEq

/-- JavaScript truthiness of an optional number: `undefined`, `null` and `0`
are falsy. -/
def truthyInt : Option Int → Bool
  | none => false
  | some v => v != 0

/-- Result of `QRCodeProcessor.validateQRData`: `{ isValid: true, data }` or
`{ isValid: false, error }`. -/
inductive ValidationResult where
  | valid (data : QRData)
  | invalid (error : String)
deriving Repr, DecidableEq

/-- `QRCodeProcessor.validateQRData` (utils/qrProcessor.js):
requires `type` and `timestamp` to be present (`hasOwnProperty`), then rejects
when `data.expiresAt && Date.now() > data.expiresAt`. No other check is made. -/
def validateQRData (data : QRData) (now : Int) : ValidationResult :=
  if data.type.isNone || data.timestamp.isNone then
    .invalid "Invalid QR code format"
  else if truthyInt data.expiresAt && decide ((data.expiresAt.getD 0) < now) then
    .invalid "QR code has expired"
  else
    .valid data

/-- `QRCodeGenerator.generateEmployeeQR(employeeId, expiresAt = null)`:
payload `{ type: 'employee_checkin', employeeId, timestamp: Date.now(),
expiresAt: expiresAt || (Date.now() + 24*60*60*1000) }`. -/
def generateEmployeeQR (employeeId : String) (expiresAt : Option Int) (now : Int) : QRData :=
  { type := some "employee_checkin"
    employeeId := some employeeId
    timestamp := some now
    expiresAt := some (if truthyInt expiresAt then expiresAt.getD 0
                       else now + 24 * 60 * 60 * 1000) }

/-- `QRCodeGenerator.generateLocationQR(locationId, locationName)`:
payload `{ type: 'location_checkin', locationId, locationName,
timestamp: Date.now() }` — no `expiresAt`. -/
def generateLocationQR (locationId : String) (locationName : String) (now : Int) : QRData :=
  { type := some "location_checkin"
    locationId := some locationId
    locationName := some locationName
    timestamp := some now }

/-- `QRCodeGenerator.generateDocumentQR(documentId, accessLevel = 'read')`:
payload `{ type: 'document_access', documentId, accessLevel,
timestamp: Date.now(), expiresAt: Date.now() + 7*24*60*60*1000 }`. -/
def generateDocumentQR (documentId : String) (accessLevel : Option String) (now : Int) : QRData :=
  { type := some "document_access"
    documentId := some documentId
    accessLevel := some (accessLevel.getD "read")
    timestamp := some now
    expiresAt := some (now + 7 * 24 * 60 * 60 * 1000) }

/-- The `data` object of the POST /api/qr/generate request body. -/
structure GenData where
  employeeId : String := ""
  expiresAt : Option Int := none
  locationId : String := ""
  locationName : String := ""
  documentId : String := ""
  accessLevel : Option String := none
deriving Repr, DecidableEq

/-- `generateQRHandler` (pages/api/qr/generate.js), restricted to the payload
it has `QRCodeGenerator` build: switches on `type`, rejecting unknown types
with HTTP 400 `'Invalid QR code type'`. The rendering of the payload into a
data-URL image is the external `qrcode` library's concern. -/
def generateQRHandler (ty : String) (d : GenData) (now : Int) : Except String QRData :=
  match ty with
  | "employee_checkin" => .ok (generateEmployeeQR d.employeeId d.expiresAt now)
  | "location_checkin" => .ok (generateLocationQR d.locationId d.locationName now)
  | "document_access" => .ok (generateDocumentQR d.documentId d.accessLevel now)
  | _ => .error "Invalid QR code type"

/-- The body of a request emitted to the external datastore collaborator by the
processors (the `fetch` calls of utils/qrProcessor.js). -/
inductive EmitRequest where
  | attendanceCheckin (qrData : QRData) (timestamp : Int) (method : String)
  | locationCheckin (locationId : Option String) (userId : String) (timestamp : Int)
  | accessGrant (documentId : Option String) (accessLevel : Option String) (userId : String)
deriving Repr, DecidableEq

deriving instance DecidableEq for Except

/-- What a processor call did: the datastore request it emitted (if it reached
the `fetch`) and the thrown error / returned success. -/
structure DispatchResult where
  emitted : Option EmitRequest
  outcome : Except String Unit
deriving Repr, DecidableEq

/-- `QRCodeProcessor.processEmployeeCheckin(qrData, currentUserId)`:
re-validates, requires `type === 'employee_checkin'`, requires
`employeeId === currentUserId`, then POSTs
`{ qrData: data, timestamp: Date.now(), method: 'qr_code' }` to
/api/attendance/checkin; a non-ok response is rethrown (`downstream`). -/
def processEmployeeCheckin (qrData : QRData) (currentUserId : String) (now : Int)
    (downstream : Except String Unit) : DispatchResult :=
  match validateQRData qrData now with
  | .invalid e => ⟨none, .error e⟩
  | .valid data =>
    if data.type ≠ some "employee_checkin" then
      ⟨none, .error "Invalid QR code type for check-in"⟩
    else if data.employeeId ≠ some currentUserId then
      ⟨none, .error "QR code belongs to different employee"⟩
    else
      ⟨some (.attendanceCheckin data now "qr_code"), downstream⟩

/-- `QRCodeProcessor.processLocationCheckin(qrData, userId)`: re-validates,
requires `type === 'location_checkin'`, then POSTs
`{ locationId: data.locationId, userId, timestamp: Date.now() }`. -/
def processLocationCheckin (qrData : QRData) (userId : String) (now : Int)
    (downstream : Except String Unit) : DispatchResult :=
  match validateQRData qrData now with
  | .invalid e => ⟨none, .error e⟩
  | .valid data =>
    if data.type ≠ some "location_checkin" then
      ⟨none, .error "Invalid QR code type for location check-in"⟩
    else
      ⟨some (.locationCheckin data.locationId userId now), downstream⟩

/-- `QRCodeProcessor.processDocumentAccess(qrData, userId)`: re-validates,
requires `type === 'document_access'`, then POSTs
`{ accessLevel: data.accessLevel, userId }` to the document-access endpoint. -/
def processDocumentAccess (qrData : QRData) (userId : String) (now : Int)
    (downstream : Except String Unit) : DispatchResult :=
  match validateQRData qrData now with
  | .invalid e => ⟨none, .error e⟩
  | .valid data =>
    if data.type ≠ some "document_access" then
      ⟨none, .error "Invalid QR code type for document access"⟩
    else
      ⟨some (.accessGrant data.documentId data.accessLevel userId), downstream⟩

/-- `processQRHandler` (pages/api/qr/process.js): validates, then switches on
`data.type`, calling the matching processor; unknown types get HTTP 400
`'Unsupported QR code type'`. Note: neither this handler nor any processor
consults or updates the replay cache. -/
def processQRHandler (qrData : QRData) (userId : String) (now : Int)
    (downstream : Except String Unit) : DispatchResult :=
  match validateQRData qrData now with
  | .invalid e => ⟨none, .error e⟩
  | .valid data =>
    match data.type with
    | some "employee_checkin" => processEmployeeCheckin data userId now downstream
    | some "location_checkin" => processLocationCheckin data userId now downstream
    | some "document_access" => processDocumentAccess data userId now downstream
    | _ => ⟨none, .error "Unsupported QR code type"⟩

/-- `secureQRProcessing.checkReplayAttack(qrData)`: hashes the payload content
and throws `'QR code already processed'` when the hash is already in
`processedQRs`; otherwise it adds the hash to the set right away (the timed
eviction after one hour is outside the claims considered here). The SHA-256
content hash is idealised as the payload value itself. -/
def checkReplayAttack (qrData : QRData) (processedQRs : List QRData) :
    Except String (List QRData) :=
  if qrData ∈ processedQRs then
    .error "QR code already processed"
  else
    .ok (qrData :: processedQRs)

/-- `Map.prototype.set` on an association-list model of the rate-limit map. -/
def mapSet (m : List (String × List Int)) (k : String) (v : List Int) :
    List (String × List Int) :=
  (k, v) :: m.filter (fun p => p.1 ≠ k)

/-- `secureQRGeneration.checkRateLimit(userId)`: keeps, per user, the times of
their recent generation requests; drops entries older than one minute, throws
`'Rate limit exceeded'` when 10 or more remain, otherwise records `now`. -/
def checkRateLimit (rateLimitQRGeneration : List (String × List Int))
    (userId : String) (now : Int) : Except String (List (String × List Int)) :=
  let userRequests := (rateLimitQRGeneration.lookup userId).getD []
  let recentRequests := userRequests.filter (fun time => now - time < 60000)
  if recentRequests.length ≥ 10 then
    .error "Rate limit exceeded"
  else
    .ok (mapSet rateLimitQRGeneration userId (recentRequests ++ [now]))

/-- `secureQRGeneration.signQRData(data, secretKey)`: HMAC-SHA256 over
`JSON.stringify(data)`, spread into the object as its `signature` field. -/
def signQRData (hmac : String → QRData → String) (data : QRData) (secretKey : String) :
    QRData :=
  { data with signature := some (hmac secretKey data) }

/-- `secureQRGeneration.verifyQRData(data, secretKey)`: strips the `signature`
field, recomputes the HMAC of the rest, and compares. -/
def verifyQRData (hmac : String → QRData → String) (data : QRData) (secretKey : String) :
    Bool :=
  data.signature == some (hmac secretKey { data with signature := none })

/-- Rendering of an optional string field for `demoHmac`'s serialisation. -/
def optFieldStr : Option String → String
  | none => "_"
  | some s => "s:" ++ s

/-- Rendering of an optional integer field for `demoHmac`'s serialisation. -/
def optFieldInt : Option Int → String
  | none => "_"
  | some v => "i:" ++ toString v

/-- A fixed-order serialisation of a payload, used by the concrete stand-in
HMAC to evaluate closed statements. -/
def serializeQRData (d : QRData) : String :=
  String.intercalate "|"
    [optFieldStr d.type, optFieldInt d.timestamp, optFieldInt d.expiresAt,
     optFieldStr d.employeeId, optFieldStr d.locationId, optFieldStr d.locationName,
     optFieldStr d.documentId, optFieldStr d.accessLevel, optFieldStr d.signature]

/-- Concrete stand-in for `crypto.createHmac('sha256', key).update(s).digest()`,
used only to instantiate the `hmac` parameter in closed statements. -/
def demoHmac (key : String) (d : QRData) : String :=
  key ++ "#" ++ serializeQRData d

/-- The subject identifier of a payload in the sense of the spec's data model:
`employeeId`, `locationId` or `documentId` depending on `type`. -/
def subjectIdOf (d : QRData) : Option String :=
  match d.type with
  | some "employee_checkin" => d.employeeId
  | some "location_checkin" => d.locationId
  | some "document_access" => d.documentId
  | _ => none

/-- The subject identifier a generation request asks to encode. -/
def genSubjectId (ty : String) (d : GenData) : String :=
  match ty with
  | "employee_checkin" => d.employeeId
  | "location_checkin" => d.locationId
  | "document_access" => d.documentId
  | _ => ""

section Lemmas

/-- Validation succeeds whenever `type` and `timestamp` are present and the
(truthiness-guarded) expiry test does not fire. -/
theorem validateQRData_valid_of (d : QRData) (now : Int)
    (htype : d.type ≠ none) (hts : d.timestamp ≠ none)
    (hexp : ∀ e, d.expiresAt = some e → e = 0 ∨ now ≤ e) :
    validateQRData d now = .valid d := by
  unfold validateQRData
  rw [if_neg, if_neg]
  · cases he : d.expiresAt with
    | none => simp [truthyInt, he]
    | some e =>
      rcases hexp e he with h0 | hle
      · simp [truthyInt, he, h0]
      · simp [truthyInt, he]
        intro _
        omega
  · simp [Option.isNone_iff_eq_none]
    exact ⟨htype, hts⟩

/-- The only error messages `validateQRData` can produce. -/
theorem validateQRData_invalid_msgs (d : QRData) (now : Int) (e : String)
    (h : validateQRData d now = .invalid e) :
    e = "Invalid QR code format" ∨ e = "QR code has expired" := by
  unfold validateQRData at h
  split at h
  · left; cases h; rfl
  · split at h
    · right; cases h; rfl
    · cases h

end Lemmas

/-- C4 counterexample: a payload whose `type` is the unknown value
`'asset_tracking'` passes `validateQRData` as valid — `validate` does not
reject unknown type variants with a malformed-payload error, refuting the
claim that an unknown type value is never accepted as valid by `validate`. -/
theorem unknown_type_passes_validate_cex :
    validateQRData { type := some "asset_tracking", timestamp := some 5 } 10 =
      .valid { type := some "asset_tracking", timestamp := some 5 } := by
  decide

/-- C4 (amended): `validateQRData` checks only the presence of `type`, not its
value; a payload with an unknown `type` that passes validation is rejected
afterwards by the dispatch switch of `processQRHandler` with
`'Unsupported QR code type'` (HTTP 400), so an unknown type never reaches a
downstream operation. -/
theorem unknown_type_rejected_at_dispatch_switch (d : QRData) (u : String) (now : Int)
    (ds : Except String Unit) (ty : String)
    (hty : d.type = some ty)
    (h1 : ty ≠ "employee_checkin") (h2 : ty ≠ "location_checkin")
    (h3 : ty ≠ "document_access")
    (hval : validateQRData d now = .valid d) :
    processQRHandler d u now ds = ⟨none, .error "Unsupported QR code type"⟩ := by
  unfold processQRHandler
  rw [hval]
  dsimp only
  rw [hty]
  split <;> simp_all

/-- C4 witness. -/
theorem unknown_type_rejected_at_dispatch_switch_witness :
    processQRHandler { type := some "asset_tracking", timestamp := some 5 } "emp-1" 10
      (.ok ()) = ⟨none, .error "Unsupported QR code type"⟩ :=
  unknown_type_rejected_at_dispatch_switch
    { type := some "asset_tracking", timestamp := some 5 } "emp-1" 10 (.ok ())
    "asset_tracking" rfl (by decide) (by decide) (by decide) (by decide)

/-- C5 counterexample: a payload of type `employee_checkin` with no
`employeeId` at all (no subjectId) validates successfully, refuting the claim
that a payload lacking a subjectId never validates. -/
theorem missing_subjectId_validates_cex :
    validateQRData { type := some "employee_checkin", timestamp := some 5 } 10 =
      .valid { type := some "employee_checkin", timestamp := some 5 } := by
  decide

/-- C5 (amended): the shape check of `validateQRData` requires only that
`type` and `timestamp` be present (`hasOwnProperty`); it performs no kind
check and no subjectId check. The malformed-payload error
`'Invalid QR code format'` is returned exactly when `type` or `timestamp` is
absent. -/
theorem validate_shape_check_type_timestamp_only (d : QRData) (now : Int) :
    validateQRData d now = .invalid "Invalid QR code format" ↔
      (d.type = none ∨ d.timestamp = none) := by
  constructor
  · intro h
    unfold validateQRData at h
    split at h
    · simp_all [Option.isNone_iff_eq_none]
    · split at h
      · exact absurd h (by decide)
      · cases h
  · intro h
    unfold validateQRData
    rw [if_pos]
    simp [Option.isNone_iff_eq_none]
    tauto

/-- C6 counterexample: a payload with `expiresAt = 0` and validation time
`now = 10 > 0` is accepted as valid: the JavaScript truthiness guard
`data.expiresAt && ...` skips the expiry comparison when `expiresAt` is `0`,
refuting the claim for the explicitly included value `0`. -/
theorem expiresAt_zero_not_expired_cex :
    validateQRData
      { type := some "employee_checkin", timestamp := some 5, expiresAt := some 0 } 10 =
      .valid { type := some "employee_checkin", timestamp := some 5, expiresAt := some 0 } := by
  decide

/-- C6 (amended): when `expiresAt` is present and nonzero and `now > expiresAt`,
and the shape check passes (`type` and `timestamp` present — the shape check
runs first, so not regardless of every other field), `validateQRData` returns
the expiry error; `expiresAt = 0` is falsy and treated as absent, so such a
payload never expires. -/
theorem expired_nonzero_expiresAt_rejected (d : QRData) (now e : Int)
    (htype : d.type ≠ none) (hts : d.timestamp ≠ none)
    (hexp : d.expiresAt = some e) (hne : e ≠ 0) (hlt : e < now) :
    validateQRData d now = .invalid "QR code has expired" := by
  unfold validateQRData
  rw [if_neg, if_pos]
  · simp [truthyInt, hexp, hne, hlt]
  · simp [Option.isNone_iff_eq_none]
    exact ⟨htype, hts⟩

/-- C6 witness. -/
theorem expired_nonzero_expiresAt_rejected_witness :
    validateQRData
      { type := some "employee_checkin", timestamp := some 5, expiresAt := some 7 } 10 =
      .invalid "QR code has expired" :=
  expired_nonzero_expiresAt_rejected
    { type := some "employee_checkin", timestamp := some 5, expiresAt := some 7 }
    10 7 (by decide) (by decide) rfl (by decide) (by decide)

/-- C7: for a validated payload of type `employee_checkin`,
`processEmployeeCheckin` (the dispatcher arm for employee check-in) throws
`'QR code belongs to different employee'` whenever the acting user differs
from the payload's `employeeId`, and on a match emits the attendance check-in
request `{ qrData, timestamp, method: 'qr_code' }` to the datastore
collaborator (its outcome being the downstream round trip's). -/
theorem processEmployeeCheckin_subject_rule (d : QRData) (u : String) (now : Int)
    (ds : Except String Unit)
    (hval : validateQRData d now = .valid d)
    (hty : d.type = some "employee_checkin") :
    (d.employeeId ≠ some u →
      processEmployeeCheckin d u now ds =
        ⟨none, .error "QR code belongs to different employee"⟩) ∧
    (d.employeeId = some u →
      processEmployeeCheckin d u now ds =
        ⟨some (.attendanceCheckin d now "qr_code"), ds⟩) := by
  refine ⟨fun h => ?_, fun h => ?_⟩ <;>
  · unfold processEmployeeCheckin
    rw [hval]
    dsimp only
    simp [hty, h]

/-- C7 witness: the spec's scenario `dispatch(_, actingSubjectId = "emp-2")`
on a code encoded for `emp-1` yields the subject-mismatch error. -/
theorem processEmployeeCheckin_subject_rule_witness :
    processEmployeeCheckin
      { type := some "employee_checkin", timestamp := some 5, employeeId := some "emp-1" }
      "emp-2" 50 (.ok ()) = ⟨none, .error "QR code belongs to different employee"⟩ :=
  (processEmployeeCheckin_subject_rule _ "emp-2" 50 (.ok ()) (by decide) rfl).1 (by decide)

/-- C8: round trip. For every known type and generation data, the payload
built by the generate handler passes `validateQRData` (provided validation
happens at or before the payload's `expiresAt`, when one is stamped) and
carries the encoded `type` and subject identifier. -/
theorem encode_validate_roundtrip (ty : String) (gd : GenData) (tGen tVal : Int)
    (p : QRData)
    (hgen : generateQRHandler ty gd tGen = .ok p)
    (hbefore : ∀ e, p.expiresAt = some e → tVal ≤ e) :
    validateQRData p tVal = .valid p ∧ p.type = some ty ∧
      subjectIdOf p = some (genSubjectId ty gd) := by
  unfold generateQRHandler at hgen
  split at hgen
  case h_1 =>
    injection hgen with h
    subst h
    refine ⟨?_, rfl, by simp [subjectIdOf, genSubjectId, generateEmployeeQR]⟩
    apply validateQRData_valid_of
    · simp [generateEmployeeQR]
    · simp [generateEmployeeQR]
    · intro e he; exact Or.inr (hbefore e he)
  case h_2 =>
    injection hgen with h
    subst h
    refine ⟨?_, rfl, by simp [subjectIdOf, genSubjectId, generateLocationQR]⟩
    apply validateQRData_valid_of
    · simp [generateLocationQR]
    · simp [generateLocationQR]
    · intro e he; exact Or.inr (hbefore e he)
  case h_3 =>
    injection hgen with h
    subst h
    refine ⟨?_, rfl, by simp [subjectIdOf, genSubjectId, generateDocumentQR]⟩
    apply validateQRData_valid_of
    · simp [generateDocumentQR]
    · simp [generateDocumentQR]
    · intro e he; exact Or.inr (hbefore e he)
  case h_4 => exact absurd hgen (by simp)

/-- C8 witness: encoding an employee check-in for `emp-1` at time 0 and
validating at time 100 (before the default 24h expiry) round-trips. -/
theorem encode_validate_roundtrip_witness :
    validateQRData (generateEmployeeQR "emp-1" none 0) 100 =
        .valid (generateEmployeeQR "emp-1" none 0) ∧
      (generateEmployeeQR "emp-1" none 0).type = some "employee_checkin" ∧
      subjectIdOf (generateEmployeeQR "emp-1" none 0) =
        some (genSubjectId "employee_checkin" { employeeId := "emp-1" }) :=
  encode_validate_roundtrip "employee_checkin" { employeeId := "emp-1" } 0 100
    (generateEmployeeQR "emp-1" none 0) rfl
    (fun e he => by simp [generateEmployeeQR, truthyInt] at he; omega)

/-- C1 counterexample: a payload signed with a key (`signQRData` with the
concrete HMAC stand-in) and then tampered in its subjectId (first byte of
`employeeId` changed from e to f post-signing) still passes `validateQRData`
as valid at time 100 — `validate` performs no signature check at all, so it
does not return a signature-invalid error for tampered signed payloads. -/
theorem tampered_signed_payload_passes_validate_cex :
    validateQRData
      { signQRData demoHmac (generateEmployeeQR "emp-1" none 0) "secret-key" with
        employeeId := some "fmp-1" } 100 =
      .valid { signQRData demoHmac (generateEmployeeQR "emp-1" none 0) "secret-key" with
        employeeId := some "fmp-1" } := by
  rfl

/-- C1 (amended): `validateQRData` ignores the `signature` field entirely: a
tampered signed payload that is well-shaped and unexpired validates as valid.
Signature checking exists only in the separate helper
`secureQRGeneration.verifyQRData`, which returns `false` on the tampered
payload whenever the recomputed HMAC of the tampered content differs from the
signature embedded at signing time. -/
theorem validate_ignores_signature_verify_detects_tampering
    (hmac : String → QRData → String) (key : String)
    (orig tampered : QRData) (now : Int)
    (hsig : tampered.signature = some (hmac key orig))
    (hdiff : hmac key { tampered with signature := none } ≠ hmac key orig)
    (htype : tampered.type ≠ none) (hts : tampered.timestamp ≠ none)
    (hexp : ∀ e, tampered.expiresAt = some e → e = 0 ∨ now ≤ e) :
    validateQRData tampered now = .valid tampered ∧
      verifyQRData hmac tampered key = false := by
  refine ⟨validateQRData_valid_of _ _ htype hts hexp, ?_⟩
  unfold verifyQRData
  rw [hsig]
  simp only [beq_eq_false_iff_ne, ne_eq, Option.some.injEq]
  exact fun h => hdiff h.symm

/-- C1 witness. -/
theorem validate_ignores_signature_verify_detects_tampering_witness :
    validateQRData
      { signQRData demoHmac (generateEmployeeQR "emp-1" none 0) "secret-key" with
        employeeId := some "fmp-1" } 100 =
      .valid { signQRData demoHmac (generateEmployeeQR "emp-1" none 0) "secret-key" with
        employeeId := some "fmp-1" } ∧
      verifyQRData demoHmac
        { signQRData demoHmac (generateEmployeeQR "emp-1" none 0) "secret-key" with
          employeeId := some "fmp-1" } "secret-key" = false :=
  validate_ignores_signature_verify_detects_tampering demoHmac "secret-key"
    (generateEmployeeQR "emp-1" none 0)
    { signQRData demoHmac (generateEmployeeQR "emp-1" none 0) "secret-key" with
      employeeId := some "fmp-1" } 100
    rfl (by decide) (by decide) (by decide)
    (fun e he => Or.inr (by injection he with h; subst h; decide))

/-- C2 counterexample: the first dispatch of a validated employee check-in
payload succeeds, and — because `processQRHandler`, the processors and
`validateQRData` carry no replay state whatsoever (the handler's result is a
pure function of payload, acting user, time and downstream response) — an
immediate second dispatch of the byte-identical raw input is the very same
application and succeeds identically rather than returning the replay error;
re-running `validate` on the same input likewise accepts it (it has no
replay-check step). -/
theorem second_dispatch_identical_payload_succeeds_cex :
    (processQRHandler
        { type := some "employee_checkin", timestamp := some 5, employeeId := some "emp-1" }
        "emp-1" 50 (.ok ())).outcome = .ok () ∧
      (processQRHandler
        { type := some "employee_checkin", timestamp := some 5, employeeId := some "emp-1" }
        "emp-1" 50 (.ok ())).outcome ≠ .error "QR code already processed" ∧
      validateQRData
        { type := some "employee_checkin", timestamp := some 5, employeeId := some "emp-1" }
        50 =
        .valid { type := some "employee_checkin", timestamp := some 5,
                 employeeId := some "emp-1" } := by
  decide

/-- C2 (amended): replay rejection lives only in the standalone
`secureQRProcessing.checkReplayAttack` helper, which is not called by
`validate` or by any dispatch path: a first call on a never-seen payload
succeeds and records its content hash, and an immediate second call on
byte-identical content throws the replay error. -/
theorem checkReplayAttack_first_ok_second_rejected (d : QRData) (s : List QRData)
    (h : d ∉ s) :
    checkReplayAttack d s = .ok (d :: s) ∧
      checkReplayAttack d (d :: s) = .error "QR code already processed" := by
  constructor
  · unfold checkReplayAttack
    rw [if_neg h]
  · unfold checkReplayAttack
    rw [if_pos (List.mem_cons_self d s)]

/-- C2 witness. -/
theorem checkReplayAttack_first_ok_second_rejected_witness :
    checkReplayAttack { type := some "employee_checkin", timestamp := some 5 } [] =
        .ok [{ type := some "employee_checkin", timestamp := some 5 }] ∧
      checkReplayAttack { type := some "employee_checkin", timestamp := some 5 }
        [{ type := some "employee_checkin", timestamp := some 5 }] =
        .error "QR code already processed" :=
  checkReplayAttack_first_ok_second_rejected
    { type := some "employee_checkin", timestamp := some 5 } [] (by decide)

/-- C3 counterexample: the replay record is created by `checkReplayAttack`
itself, at check time (the hash is added to `processedQRs` immediately after
the membership test, with no downstream write having occurred), and the
dispatcher writes no replay record at any point: here `processEmployeeCheckin`
emits the attendance request, the downstream write fails — yet the payload
that went through the replay check beforehand is already recorded as
consumed. This refutes both "the replay record is written only after the
downstream write succeeds" and "successful emission is the only point at
which the payload is marked consumed". -/
theorem replay_record_written_without_downstream_success_cex :
    checkReplayAttack
        { type := some "employee_checkin", timestamp := some 7, employeeId := some "emp-3" }
        [] =
      .ok [{ type := some "employee_checkin", timestamp := some 7,
             employeeId := some "emp-3" }] ∧
      processEmployeeCheckin
        { type := some "employee_checkin", timestamp := some 7, employeeId := some "emp-3" }
        "emp-3" 50 (.error "Check-in failed") =
        ⟨some (.attendanceCheckin
          { type := some "employee_checkin", timestamp := some 7, employeeId := some "emp-3" }
          50 "qr_code"), .error "Check-in failed"⟩ := by
  decide

/-- C3 (amended): a never-seen payload is marked consumed by the replay check
itself: `checkReplayAttack` returns a processed-set that already contains the
payload's content hash, independent of any downstream emission (which it
neither performs nor observes); dispatch itself never writes a replay
record. -/
theorem checkReplayAttack_consumes_at_check (d : QRData) (s : List QRData)
    (h : d ∉ s) :
    ∃ s', checkReplayAttack d s = .ok s' ∧ d ∈ s' :=
  ⟨d :: s, by unfold checkReplayAttack; rw [if_neg h], List.mem_cons_self d s⟩

/-- C3 witness. -/
theorem checkReplayAttack_consumes_at_check_witness :
    ∃ s', checkReplayAttack
        { type := some "location_checkin", timestamp := some 7, locationId := some "loc-2" }
        [] = .ok s' ∧
      { type := some "location_checkin", timestamp := some 7,
        locationId := some "loc-2" } ∈ s' :=
  checkReplayAttack_consumes_at_check
    { type := some "location_checkin", timestamp := some 7, locationId := some "loc-2" }
    [] (by decide)

/-- `processEmployeeCheckin` can never produce the replay rejection when the
downstream write succeeds: its error messages are the two validation errors,
the type-mismatch error and the subject-mismatch error. -/
theorem processEmployeeCheckin_no_replay_error (d : QRData) (u : String) (now : Int) :
    (processEmployeeCheckin d u now (.ok ())).outcome ≠
      .error "QR code already processed" := by
  unfold processEmployeeCheckin
  split
  · next e heq =>
      rcases validateQRData_invalid_msgs _ _ _ heq with h | h <;> subst h <;> decide
  · next data heq =>
      split
      · decide
      · split
        · decide
        · exact fun hc => Except.noConfusion hc

/-- `processLocationCheckin` can never produce the replay rejection when the
downstream write succeeds. -/
theorem processLocationCheckin_no_replay_error (d : QRData) (u : String) (now : Int) :
    (processLocationCheckin d u now (.ok ())).outcome ≠
      .error "QR code already processed" := by
  unfold processLocationCheckin
  split
  · next e heq =>
      rcases validateQRData_invalid_msgs _ _ _ heq with h | h <;> subst h <;> decide
  · next data heq =>
      split
      · decide
      · exact fun hc => Except.noConfusion hc

/-- `processDocumentAccess` can never produce the replay rejection when the
downstream write succeeds. -/
theorem processDocumentAccess_no_replay_error (d : QRData) (u : String) (now : Int) :
    (processDocumentAccess d u now (.ok ())).outcome ≠
      .error "QR code already processed" := by
  unfold processDocumentAccess
  split
  · next e heq =>
      rcases validateQRData_invalid_msgs _ _ _ heq with h | h <;> subst h <;> decide
  · next data heq =>
      split
      · decide
      · exact fun hc => Except.noConfusion hc

/-- C9 counterexample: two dispatch calls on the same never-before-seen
location check-in payload (one per acting user, as in a race between two
scanners) both succeed. The whole dispatch path reads and writes no shared
replay state — each call's result is a pure function of payload, actor, time
and downstream response — so every interleaving of two simultaneous calls
produces exactly these two results: two successes, never the claimed
one-success-one-replay-rejection. -/
theorem concurrent_dispatch_double_success_cex :
    (processQRHandler
        { type := some "location_checkin", timestamp := some 5, locationId := some "loc-9" }
        "emp-5" 50 (.ok ())).outcome = .ok () ∧
      (processQRHandler
        { type := some "location_checkin", timestamp := some 5, locationId := some "loc-9" }
        "emp-6" 50 (.ok ())).outcome = .ok () := by
  decide

/-- C9 (amended): the dispatch path contains no replay check at all — when the
downstream write succeeds, `processQRHandler` can never return the replay
rejection, for any payload, actor and time; hence two simultaneous dispatch
calls on the same never-before-seen payload both succeed rather than yielding
exactly one success. The check-and-insert of the standalone
`checkReplayAttack` helper is a plain check-then-insert, not wired into
dispatch. -/
theorem dispatch_never_replay_rejected (d : QRData) (u : String) (now : Int) :
    (processQRHandler d u now (.ok ())).outcome ≠
      .error "QR code already processed" := by
  unfold processQRHandler
  split
  · next e heq =>
      rcases validateQRData_invalid_msgs _ _ _ heq with h | h <;> subst h <;> decide
  · next data heq =>
      split
      · exact processEmployeeCheckin_no_replay_error data u now
      · exact processLocationCheckin_no_replay_error data u now
      · exact processDocumentAccess_no_replay_error data u now
      · decide

/-- C10: `checkRateLimit` throws `'Rate limit exceeded'` exactly when 10 or
more of the user's recorded request times lie within the last 60000 ms of the
current time, and otherwise records the current time (alongside the still
recent requests) and returns. -/
theorem checkRateLimit_spec (m : List (String × List Int)) (uid : String) (now : Int) :
    (checkRateLimit m uid now = .error "Rate limit exceeded" ↔
      10 ≤ (((m.lookup uid).getD []).filter (fun t => now - t < 60000)).length) ∧
    ((((m.lookup uid).getD []).filter (fun t => now - t < 60000)).length < 10 →
      checkRateLimit m uid now =
        .ok (mapSet m uid
          ((((m.lookup uid).getD []).filter (fun t => now - t < 60000)) ++ [now]))) := by
  unfold checkRateLimit
  dsimp only
  split
  · next h => exact ⟨⟨fun _ => h, fun _ => rfl⟩, fun hlt => absurd h (by omega)⟩
  · next h => exact ⟨⟨fun hc => Except.noConfusion hc, fun hc => absurd hc h⟩, fun _ => rfl⟩

/-- C10 witness: a user with one recent request gets the current time
recorded. -/
theorem checkRateLimit_spec_witness :
    checkRateLimit [("u", [100])] "u" 200 = .ok [("u", [100, 200])] :=
  (checkRateLimit_spec [("u", [100])] "u" 200).2 (by decide)
